import Mathlib

/-
Verification development for the teams-rag-bot repository
(src/ingest.py and src/app.py).

Texts are modelled as lists of characters; Python slices become
List.drop and List.take; machine loops become fuel-indexed recursive
functions where the source loop has no structural termination measure
(an Option result, none meaning the loop has not finished within the
given number of iterations).  External services (pandas, PyPDF2, the
OpenAI client, Azure blob storage and Azure AI Search) are oracles
passed in as function arguments.
-/

/-! ## Text chunker: ingest.py, chunk_text -/

/-- Python str.strip on a list of characters: drop leading and trailing
whitespace. -/
def pyStrip (s : List Char) : List Char :=
  ((s.dropWhile Char.isWhitespace).reverse.dropWhile Char.isWhitespace).reverse

/-- The chunk emitted by one loop iteration of chunk_text: the slice
text[start:end] with end = min(len(text), start + max_chars). -/
def chunkPiece (text : List Char) (maxChars start : Nat) : List Char :=
  (text.drop start).take (min text.length (start + maxChars) - start)

/-- The next start index computed by chunk_text:
start = end - overlap (Python int arithmetic), then clamped to 0 when
negative. -/
def chunkStepNext (e overlap : Nat) : Nat :=
  if (e : Int) - (overlap : Int) < 0 then 0 else ((e : Int) - (overlap : Int)).toNat

/-- The while loop of chunk_text (ingest.py lines 51-58), as a fuel-indexed
function.  Each iteration with start < len(text) appends the slice
text[start : min(len(text), start + max_chars)], computes the clamped next
start, and breaks when that next start reaches the end of the text;
none means the loop has not terminated within fuel iterations. -/
def chunkLoop (text : List Char) (maxChars overlap : Nat) :
    Nat → Nat → List (List Char) → Option (List (List Char))
  | 0, _, _ => none
  | fuel + 1, start, chunks =>
    if start < text.length then
      if text.length ≤ chunkStepNext (min text.length (start + maxChars)) overlap then
        some (chunks ++ [chunkPiece text maxChars start])
      else
        chunkLoop text maxChars overlap fuel
          (chunkStepNext (min text.length (start + maxChars)) overlap)
          (chunks ++ [chunkPiece text maxChars start])
    else some chunks

/-- ingest.py chunk_text: strip the text, return no chunks when the result
is empty, otherwise run the sliding-window loop from start = 0. -/
def chunk_text (text : List Char) (maxChars overlap : Nat) (fuel : Nat) :
    Option (List (List Char)) :=
  if pyStrip text = [] then some []
  else chunkLoop (pyStrip text) maxChars overlap fuel 0 []

theorem chunkStepNext_lt (e overlap len : Nat) (h0 : 0 < len) (he : e ≤ len)
    (hov : 0 < overlap) : chunkStepNext e overlap < len := by
  unfold chunkStepNext
  split <;> omega

theorem chunkLoop_diverges (text : List Char) (maxChars overlap : Nat) (hov : 0 < overlap) :
    ∀ fuel start chunks, start < text.length →
      chunkLoop text maxChars overlap fuel start chunks = none := by
  intro fuel
  induction fuel with
  | zero => intro start chunks _; rfl
  | succ n ih =>
    intro start chunks h
    have h0 : 0 < text.length := Nat.lt_of_le_of_lt (Nat.zero_le _) h
    have hlt : chunkStepNext (min text.length (start + maxChars)) overlap < text.length :=
      chunkStepNext_lt _ _ _ h0 (Nat.min_le_left _ _) hov
    simp only [chunkLoop, if_pos h, if_neg (by omega : ¬ text.length ≤
      chunkStepNext (min text.length (start + maxChars)) overlap)]
    exact ih _ _ hlt

/-- Claim C1: with the default parameters maxChars = 1000 and overlap = 150,
chunk_text is claimed to terminate within ceil(L/850)+1 steps, stay inside
the text boundary and not duplicate the final chunk.  The code does the
opposite: for every input whose stripped form is non-empty, the loop never
terminates, because the computed next start is always
min(len, start+1000) - 150 < len, so neither the break nor the loop
condition ever fires (a code bug: the break was clearly intended to stop
the loop).  For every fuel bound the loop is still running. -/
theorem chunk_text_defaults_diverge (text : List Char) (h : pyStrip text ≠ []) :
    ∀ fuel, chunk_text text 1000 150 fuel = none := by
  intro fuel
  unfold chunk_text
  rw [if_neg h]
  exact chunkLoop_diverges _ _ _ (by omega) fuel 0 [] (List.length_pos.mpr h)

theorem chunk_text_defaults_diverge_witness :
    pyStrip ['a'] ≠ [] ∧ chunk_text ['a'] 1000 150 5 = none :=
  ⟨by decide, chunk_text_defaults_diverge ['a'] (by decide) 5⟩

/-- Claim C2: an input whose trimmed form is non-empty and shorter than
maxChars is claimed to yield exactly one chunk equal to the trimmed input.
The code instead loops forever on such an input (same bug as the
termination claim): on the two-character text "hi" with the default
parameters, chunk_text returns no result for any fuel bound, rather than
the single chunk "hi". -/
theorem chunk_text_short_input_diverges :
    ∀ fuel, chunk_text ['h', 'i'] 1000 150 fuel = none := by
  intro fuel
  unfold chunk_text
  rw [if_neg (by decide : pyStrip ['h', 'i'] ≠ [])]
  exact chunkLoop_diverges _ _ _ (by omega) fuel 0 [] (by decide)

/-! ## Document extraction: ingest.py, normalize / extract_from_excel /
extract_from_pdf

A spreadsheet is modelled as its list of column names plus a table of
rows; every cell is an Option String, where some s stands for a present
cell whose Python str() rendering is s, and none stands for a missing
(None) cell. -/

/-- Python str.strip on a String. -/
def pyStripStr (s : String) : String :=
  String.mk (pyStrip s.data)

/-- ingest.py normalize: str(s).strip() if s is not None else "".
(Named normalizeCell because Mathlib already claims the name normalize.) -/
def normalizeCell : Option String → String
  | some s => pyStripStr s
  | none => ""

/-- Python str.join: the separator is inserted between consecutive
elements, with no separator around a singleton and the empty string on an
empty list. -/
def pyJoin (sep : String) : List String → String
  | [] => ""
  | [x] => x
  | x :: y :: xs => x ++ sep ++ pyJoin sep (y :: xs)

/-- One extracted record: the dict appended by the extractors
(source_type, source_file, page, content). -/
structure Doc where
  source_type : String
  source_file : String
  page : Nat
  content : String
deriving DecidableEq

/-- The row text built by extract_from_excel for one row:
" | ".join of the strings f"{c}:{normalize(row[c])}" over the columns c. -/
def rowContent (columns : List String) (row : List (Option String)) : String :=
  pyJoin " | " (List.zipWith (fun c v => c ++ ":" ++ normalizeCell v) columns row)

/-- ingest.py extract_from_excel: one record per row, source_type "excel",
page fixed at 0, content the joined column:value pairs. -/
def extract_from_excel (table : List (List (Option String))) (columns : List String)
    (filename : String) : List Doc :=
  table.map fun row =>
    { source_type := "excel", source_file := filename, page := 0,
      content := rowContent columns row }

/-- The page loop of ingest.py extract_from_pdf, 1-based page numbers.
Each page text is page.extract_text() or "" (none stands for a page with
no extractable text) and is passed through chunk_text, which needs fuel;
none means some chunk_text call did not terminate within the fuel. -/
def pdfPages (filename : String) (fuel : Nat) :
    List (Option (List Char)) → Nat → Option (List Doc)
  | [], _ => some []
  | p :: ps, pageNo =>
    match chunk_text (p.getD []) 1000 150 fuel with
    | none => none
    | some chunks =>
      match pdfPages filename fuel ps (pageNo + 1) with
      | none => none
      | some rest =>
        some ((chunks.map fun ch =>
          { source_type := "pdf", source_file := filename, page := pageNo,
            content := String.mk ch }) ++ rest)

/-- ingest.py extract_from_pdf: enumerate the pages from 1 and run each
page text through chunk_text. -/
def extract_from_pdf (pages : List (Option (List Char))) (filename : String)
    (fuel : Nat) : Option (List Doc) :=
  pdfPages filename fuel pages 1

theorem string_ne_empty_of_length_pos (s : String) (h : 0 < s.length) : s ≠ "" := by
  intro he
  rw [he] at h
  simp at h

theorem pyJoin_head_length_le (sep x : String) (xs : List String) :
    x.length ≤ (pyJoin sep (x :: xs)).length := by
  cases xs with
  | nil => simp [pyJoin]
  | cons y ys => simp only [pyJoin, String.length_append]; omega

/-- Claim C4: spreadsheet extraction on an N-row, M-column table yields
exactly N records, each with source type "excel", page 0, the given file
name, and content equal to the column:value pairs in column order joined
by " | ", with a missing cell normalising to the empty string rather than
a null word. -/
theorem extract_from_excel_rows (columns : List String)
    (table : List (List (Option String))) (filename : String)
    (hrows : ∀ r ∈ table, r.length = columns.length) :
    (extract_from_excel table columns filename).length = table.length ∧
    (∀ d ∈ extract_from_excel table columns filename,
      d.page = 0 ∧ d.source_type = "excel" ∧ d.source_file = filename) ∧
    (extract_from_excel table columns filename).map Doc.content =
      table.map (fun row =>
        pyJoin " | " (List.zipWith (fun c v => c ++ ":" ++ normalizeCell v) columns row)) ∧
    normalizeCell none = "" ∧ normalizeCell none ≠ "None" ∧ normalizeCell none ≠ "null" := by
  refine ⟨by simp [extract_from_excel], ?_, ?_, rfl, by decide, by decide⟩
  · intro d hd
    simp only [extract_from_excel, List.mem_map] at hd
    obtain ⟨row, _, rfl⟩ := hd
    exact ⟨rfl, rfl, rfl⟩
  · simp [extract_from_excel, List.map_map, rowContent, Function.comp]

theorem extract_from_excel_rows_witness :
    (extract_from_excel [[some " 1 ", none]] ["a", "b"] "f.xlsx").length = 1 ∧
    ({ source_type := "excel", source_file := "f.xlsx", page := 0,
       content := "a:1 | b:" } : Doc).page = 0 :=
  ⟨(extract_from_excel_rows ["a", "b"] [[some " 1 ", none]] "f.xlsx" (by decide)).1,
   ((extract_from_excel_rows ["a", "b"] [[some " 1 ", none]] "f.xlsx" (by decide)).2.1
      _ (by decide)).1⟩

/-- Claim C10 counterexample: a spreadsheet column whose name carries
leading whitespace produces a record whose content is not trimmed, so the
invariant that every extracted record has trimmed content fails. -/
theorem excel_untrimmed_content_counterexample :
    (extract_from_excel [[some "v"]] [" a"] "f.xlsx").map Doc.content = [" a:v"] ∧
    pyStripStr " a:v" ≠ " a:v" := by
  constructor
  · decide
  · decide

/-- Claim C10 amended: extracted content is non-empty but not necessarily
trimmed.  Every record produced by the spreadsheet path on a table with at
least one column (and rows matching the column count) has non-empty
content, and every chunk slice emitted by the chunker loop is non-empty;
column names are not normalised, so content can carry leading or trailing
whitespace. -/
theorem extraction_content_nonempty (columns : List String)
    (table : List (List (Option String))) (filename : String)
    (hcols : columns ≠ []) (hrows : ∀ r ∈ table, r.length = columns.length) :
    (∀ d ∈ extract_from_excel table columns filename, d.content ≠ "") ∧
    (∀ (text : List Char) (maxChars start : Nat), start < text.length →
      0 < maxChars → chunkPiece text maxChars start ≠ []) := by
  constructor
  · intro d hd
    simp only [extract_from_excel, List.mem_map] at hd
    obtain ⟨row, hrow, rfl⟩ := hd
    obtain ⟨c, cs, rfl⟩ := List.exists_cons_of_ne_nil hcols
    have hlen : row.length = cs.length + 1 := by
      simpa using hrows row hrow
    obtain ⟨v, vs, rfl⟩ : ∃ v vs, row = v :: vs := by
      cases row with
      | nil => simp at hlen
      | cons v vs => exact ⟨v, vs, rfl⟩
    apply string_ne_empty_of_length_pos
    show 0 < (rowContent (c :: cs) (v :: vs)).length
    have hhead : (c ++ ":" ++ normalizeCell v).length ≤
        (rowContent (c :: cs) (v :: vs)).length := by
      simpa [rowContent] using
        pyJoin_head_length_le " | " (c ++ ":" ++ normalizeCell v)
          (List.zipWith (fun c v => c ++ ":" ++ normalizeCell v) cs vs)
    have hmid : (c ++ ":" ++ normalizeCell v).length =
        c.length + ":".length + (normalizeCell v).length := by
      simp [String.length_append]
    have hone : ":".length = 1 := by decide
    omega
  · intro text maxChars start hs hm
    apply List.ne_nil_of_length_pos
    rw [chunkPiece, List.length_take, List.length_drop]
    omega

theorem extraction_content_nonempty_witness :
    ({ source_type := "excel", source_file := "f", page := 0,
       content := "a:x" } : Doc).content ≠ "" ∧
    chunkPiece ['q'] 1000 0 ≠ [] :=
  ⟨(extraction_content_nonempty ["a"] [[some "x"]] "f" (by decide) (by decide)).1
      _ (by decide),
   (extraction_content_nonempty ["a"] [[some "x"]] "f" (by decide) (by decide)).2
      ['q'] 1000 0 (by decide) (by decide)⟩

/-! ## Ingestion run: ingest.py, ingest_all_blobs (extraction phase)

Blobs are (name, data) pairs with an abstract byte type.  The external
parsers (pandas via extract_from_excel, PyPDF2 via extract_from_pdf) are
oracles returning Except: an error models a Python exception raised while
parsing the file.  ingest_all_blobs has no try/except, so in the source
any such exception propagates out of the whole function; the embedding
mirrors that by propagating the first error. -/

/-- Python str.endswith for a plain suffix string. -/
def pyEndsWith (s suf : String) : Bool :=
  List.isSuffixOf suf.data s.data

/-- Python str.lower, character by character.  (String.toLower is avoided
because its underlying String.map does not reduce inside the kernel.) -/
def pyLower (s : String) : String :=
  String.mk (s.data.map Char.toLower)

/-- The blob loop of ingest_all_blobs (ingest.py lines 98-106): dispatch on
the lowercased file name ending, extend all_docs with the extracted
records, and let any parse exception abort the whole run. -/
def ingestExtract {α : Type} (parseExcel parsePdf : α → String → Except String (List Doc)) :
    List (String × α) → Except String (List Doc)
  | [] => Except.ok []
  | (name, data) :: rest =>
    match
      (if pyEndsWith (pyLower name) ".xlsx" || pyEndsWith (pyLower name) ".xls" then
        parseExcel data name
      else if pyEndsWith (pyLower name) ".pdf" then
        parsePdf data name
      else Except.ok []) with
    | Except.error e => Except.error e
    | Except.ok docs =>
      match ingestExtract parseExcel parsePdf rest with
      | Except.error e => Except.error e
      | Except.ok restDocs => Except.ok (docs ++ restDocs)

/-- Claim C3 counterexample: a container with one good spreadsheet and one
spreadsheet whose parse raises.  The run is claimed to skip the bad file,
count it, and keep the good file's records; instead the whole run aborts
with the parse error and the good file's record is lost. -/
theorem ingest_corrupt_file_aborts_counterexample :
    ingestExtract
      (fun corrupt name =>
        if corrupt then Except.error "cannot parse"
        else Except.ok [{ source_type := "excel", source_file := name, page := 0,
                          content := "a:1" }])
      (fun _ _ => Except.ok [])
      [("good.xlsx", false), ("bad.xlsx", true)] = Except.error "cannot parse" :=
  rfl

/-- Claim C3 amended: a source file whose parse raises aborts the whole
ingestion run.  If the first blob has an ingestible spreadsheet extension
and its parse returns an error, ingest_all_blobs propagates exactly that
error, discarding the contributions of every other blob; no per-file
error count or summary is produced. -/
theorem ingest_parse_error_propagates {α : Type}
    (parseExcel parsePdf : α → String → Except String (List Doc))
    (name : String) (data : α) (rest : List (String × α)) (e : String)
    (hx : pyEndsWith (pyLower name) ".xlsx" = true)
    (he : parseExcel data name = Except.error e) :
    ingestExtract parseExcel parsePdf ((name, data) :: rest) = Except.error e := by
  unfold ingestExtract
  rw [hx]
  simp [he]

theorem ingest_parse_error_propagates_witness :
    ingestExtract (fun (_ : Unit) _ => Except.error "boom")
      (fun _ _ => Except.ok []) [("a.xlsx", ())] = Except.error "boom" :=
  ingest_parse_error_propagates _ _ "a.xlsx" () [] "boom" (by decide) rfl

/-! ## Embedder input: get_embedding in ingest.py and app.py

Both definitions send text.replace("\x7bnewline\x7d", " ") to the
embeddings endpoint; with a one-character pattern Python str.replace is a
character map. -/

/-- The string actually sent to the embedding model by get_embedding:
the input with every newline replaced by a space (and nothing else). -/
def get_embedding_input (text : List Char) : List Char :=
  text.map fun c => if c = '\n' then ' ' else c

/-- Claim C5 counterexample: the embedder is claimed to trim its input and
to substitute a non-empty placeholder for an empty normalized text.  The
code only replaces newlines: the empty input is sent as the empty string,
and surrounding whitespace is sent unchanged (the sent text differs from
its stripped form). -/
theorem embedder_no_trim_no_placeholder_counterexample :
    get_embedding_input [] = [] ∧
    get_embedding_input [' ', 'h', 'i', ' '] = [' ', 'h', 'i', ' '] ∧
    pyStrip [' ', 'h', 'i', ' '] ≠ [' ', 'h', 'i', ' '] := by
  decide

/-- Claim C5 amended: the embedder normalizes only by replacing embedded
newlines with spaces: the sent text never contains a newline, the empty
input is sent as the empty string (no placeholder), and leading
whitespace is preserved (no trimming). -/
theorem embedder_newline_replacement_only (text : List Char) :
    (get_embedding_input text).all (fun c => !(c == '\n')) = true ∧
    get_embedding_input [] = [] ∧
    get_embedding_input (' ' :: text) = ' ' :: get_embedding_input text := by
  refine ⟨?_, rfl, rfl⟩
  rw [List.all_eq_true]
  intro c hc
  obtain ⟨a, _, rfl⟩ := List.mem_map.mp hc
  by_cases h : a = '\n' <;> simp [h]

/-! ## Query path: app.py, search_top_k / answer_with_rag /
on_message_activity

The search index is an oracle: the ranked records it returns for the
query are a parameter.  The chat model is an oracle from the prompt to
its reply.  CallCounts records how many embedding, index and chat-model
calls the code path performs. -/

/-- One record returned by the search index (fields selected by
search_top_k). -/
structure SearchDoc where
  content : String
  source_type : String
  source_file : String
  page : Nat
deriving DecidableEq

/-- The provenance tuple appended to sources by search_top_k. -/
structure Source where
  source_type : String
  source_file : String
  page : Nat
deriving DecidableEq

/-- Number of embedding, index-query and chat-model calls made by a code
path. -/
structure CallCounts where
  embedCalls : Nat
  searchCalls : Nat
  llmCalls : Nat
deriving DecidableEq

def toSource (r : SearchDoc) : Source :=
  { source_type := r.source_type, source_file := r.source_file, page := r.page }

/-- app.py search_top_k: one get_embedding call on the question, one
index query, then contexts = the returned record contents and sources =
their provenance tuples, in index order. -/
def search_top_k (results : List SearchDoc) :
    (List String × List Source) × CallCounts :=
  ((results.map (fun r => r.content), results.map toSource),
   { embedCalls := 1, searchCalls := 1, llmCalls := 0 })

/-- The joined context block of answer_with_rag:
the strings f"[CTX{i+1}] {c}" joined by blank lines. -/
def context_text (contexts : List String) : String :=
  pyJoin "\n\n" (contexts.enum.map fun p => "[CTX" ++ toString (p.1 + 1) ++ "] " ++ p.2)

/-- The prompt string built by answer_with_rag (app.py lines 74-85). -/
def buildPrompt (ctx q : String) : String :=
  "\nYou are a Teams bot assistant.\nAnswer ONLY using the context below from Excel/PDF files.\nIf the answer is not in context, reply: \"Not available in the uploaded Excel/PDF data.\"\n\nContext:\n"
    ++ ctx ++ "\n\nQuestion: " ++ q ++ "\n\nAnswer in short and clear:\n"

/-- One line of the provenance footer (app.py lines 96-100): a pdf source
renders as "- file (page N)", anything else as "- file (excel row/chunk)". -/
def sourceLine (s : Source) : String :=
  if s.source_type = "pdf" then
    "- " ++ s.source_file ++ " (page " ++ toString s.page ++ ")"
  else
    "- " ++ s.source_file ++ " (excel row/chunk)"

/-- app.py answer_with_rag: retrieve, build the prompt, always make one
chat-model call, strip its reply, and append the footer built from the
first three sources when there is at least one source. -/
def answer_with_rag (llm : String → String) (results : List SearchDoc)
    (question : String) : String × CallCounts :=
  match search_top_k results with
  | ((contexts, sources), calls) =>
    let final_answer := pyStripStr (llm (buildPrompt (context_text contexts) question))
    let src_lines := (sources.take 3).map sourceLine
    (if src_lines = [] then final_answer
     else final_answer ++ "\n\n📌 Sources:\n" ++ pyJoin "\n" src_lines,
     { calls with llmCalls := calls.llmCalls + 1 })

/-- app.py on_message_activity: question = (activity.text or "").strip();
an empty question is answered with the fixed prompting message and nothing
else runs; otherwise answer_with_rag runs on the question. -/
def on_message_activity (llm : String → String) (results : List SearchDoc)
    (text : Option String) : String × CallCounts :=
  if pyStripStr (text.getD "") = "" then
    ("Please ask a question based on the uploaded Excel/PDF files.",
     { embedCalls := 0, searchCalls := 0, llmCalls := 0 })
  else answer_with_rag llm results (pyStripStr (text.getD ""))

/-- Claim C6 counterexample: with zero retrieval results the formatter is
claimed to return the fixed fallback string and make no model call.  The
code makes exactly one chat-model call even then and returns the model
output (here "LLM OUTPUT"), which is not the fallback string. -/
theorem empty_retrieval_still_calls_llm :
    (answer_with_rag (fun _ => "LLM OUTPUT") [] "q").2.llmCalls = 1 ∧
    (answer_with_rag (fun _ => "LLM OUTPUT") [] "q").1 = "LLM OUTPUT" ∧
    "LLM OUTPUT" ≠ "Not available in uploaded data" := by
  refine ⟨rfl, ?_, by decide⟩
  decide

/-- Claim C6 amended: with zero retrieval results the code still makes
exactly one chat-model call (after one embedding call and one index
query), on a prompt whose context block is empty; the fallback sentence
exists only as an instruction inside that prompt, and the returned answer
is the stripped model reply with no sources footer. -/
theorem empty_retrieval_behavior (llm : String → String) (q : String) :
    answer_with_rag llm [] q =
      (pyStripStr (llm (buildPrompt (context_text []) q)),
       { embedCalls := 1, searchCalls := 1, llmCalls := 1 }) :=
  rfl

/-- Claim C7 counterexample: a spreadsheet source is claimed to render in
the footer as "filename (excel)".  The code renders it as
"filename (excel row/chunk)", a different string. -/
theorem excel_footer_render_counterexample :
    (answer_with_rag (fun _ => "ANS")
        [{ content := "c", source_type := "excel", source_file := "f.xlsx", page := 0 }]
        "q").1 =
      "ANS\n\n📌 Sources:\n- f.xlsx (excel row/chunk)" ∧
    "ANS\n\n📌 Sources:\n- f.xlsx (excel row/chunk)" ≠
      "ANS\n\n📌 Sources:\n- f.xlsx (excel)" := by
  refine ⟨?_, by decide⟩
  decide

/-- Claim C7 amended: in the single (generative) formatting strategy the
code has, the answer on a non-empty retrieval result is the stripped model
reply followed by a footer built from the first three sources, where a pdf
source renders as "- filename (page N)" and every non-pdf source (the
spreadsheet case) renders as "- filename (excel row/chunk)". -/
theorem footer_rendering (llm : String → String) (q : String)
    (results : List SearchDoc) (h : results ≠ []) :
    (answer_with_rag llm results q).1 =
      pyStripStr (llm (buildPrompt (context_text (results.map fun r => r.content)) q)) ++
        "\n\n📌 Sources:\n" ++
        pyJoin "\n" (((results.map toSource).take 3).map sourceLine) ∧
    (∀ s : Source, s.source_type = "pdf" →
      sourceLine s = "- " ++ s.source_file ++ " (page " ++ toString s.page ++ ")") ∧
    (∀ s : Source, s.source_type ≠ "pdf" →
      sourceLine s = "- " ++ s.source_file ++ " (excel row/chunk)") := by
  refine ⟨?_, ?_, ?_⟩
  · obtain ⟨r, rs, rfl⟩ := List.exists_cons_of_ne_nil h
    simp only [answer_with_rag, search_top_k]
    rw [if_neg (by simp)]
  · intro s hs
    simp [sourceLine, hs]
  · intro s hs
    simp [sourceLine, hs]

theorem footer_rendering_witness :
    sourceLine { source_type := "pdf", source_file := "d.pdf", page := 2 } =
      "- " ++ "d.pdf" ++ " (page " ++ toString (2 : Nat) ++ ")" :=
  (footer_rendering (fun _ => "A") "q"
      [{ content := "c", source_type := "pdf", source_file := "d.pdf", page := 2 }]
      (by decide)).2.1
    { source_type := "pdf", source_file := "d.pdf", page := 2 } rfl

/-- Claim C8: an inbound message whose question text is empty or
whitespace-only is answered with the fixed prompting message, with zero
embedding calls, zero index queries and zero chat-model calls; the entry
point is a total function, so it cannot throw. -/
theorem empty_question_short_circuits (llm : String → String)
    (results : List SearchDoc) (text : Option String)
    (h : pyStripStr (text.getD "") = "") :
    on_message_activity llm results text =
      ("Please ask a question based on the uploaded Excel/PDF files.",
       { embedCalls := 0, searchCalls := 0, llmCalls := 0 }) := by
  unfold on_message_activity
  rw [if_pos h]

theorem empty_question_short_circuits_witness :
    on_message_activity (fun _ => "x") [] (some "   ") =
      ("Please ask a question based on the uploaded Excel/PDF files.",
       { embedCalls := 0, searchCalls := 0, llmCalls := 0 }) :=
  empty_question_short_circuits _ _ _ (by decide)

/-! ## Index writer: ingest.py, ingest_all_blobs (upload phase)

The upload loop walks the record list in slices of batch_size = 200 and
prints, per batch, the number of per-record succeeded flags that are
true; the function then returns the summary dict
(status "success", total_chunks = number of records).  The index client
is an oracle mapping a batch to its per-record succeeded flags. -/

/-- The summary dict returned by ingest_all_blobs. -/
structure IngestSummary where
  status : String
  total_chunks : Nat
deriving DecidableEq

/-- The batch slices search_docs[i:i+200] for i in range(0, len, 200),
written with fuel (the list length bounds the number of slices, since
every slice removes at least one element from a non-empty list). -/
def batchesAux {α : Type} : Nat → List α → List (List α)
  | 0, _ => []
  | _, [] => []
  | n + 1, x :: xs => ((x :: xs).take 200) :: batchesAux n ((x :: xs).drop 200)

def batches {α : Type} (docs : List α) : List (List α) :=
  batchesAux docs.length docs

/-- The per-batch success counts printed by the upload loop:
sum of the succeeded flags of each batch. -/
def perBatchSuccess {α : Type} (upload : List α → List Bool) (docs : List α) :
    List Nat :=
  (batches docs).map fun b => (upload b).count true

/-- The upload phase of ingest_all_blobs: the printed per-batch success
counts together with the returned summary. -/
def ingestUploadPhase {α : Type} (upload : List α → List Bool) (docs : List α) :
    List Nat × IngestSummary :=
  (perBatchSuccess upload docs, { status := "success", total_chunks := docs.length })

theorem batchesAux_flatten {α : Type} :
    ∀ (n : Nat) (docs : List α), docs.length ≤ n → (batchesAux n docs).flatten = docs := by
  intro n
  induction n with
  | zero =>
    intro docs hd
    have : docs = [] := List.eq_nil_of_length_eq_zero (Nat.le_zero.mp hd)
    subst this
    rfl
  | succ m ih =>
    intro docs hd
    cases docs with
    | nil => rfl
    | cons x xs =>
      have hrest : ((x :: xs).drop 200).length ≤ m := by
        rw [List.length_drop]
        simp only [List.length_cons] at hd ⊢
        omega
      simp only [batchesAux, List.flatten_cons, ih _ hrest, List.take_append_drop]

theorem batchesAux_sizes {α : Type} :
    ∀ (n : Nat) (docs : List α), ∀ b ∈ batchesAux n docs, b.length ≤ 200 := by
  intro n
  induction n with
  | zero => intro docs b hb; simp [batchesAux] at hb
  | succ m ih =>
    intro docs b hb
    cases docs with
    | nil => simp [batchesAux] at hb
    | cons x xs =>
      simp only [batchesAux, List.mem_cons] at hb
      rcases hb with rfl | hb
      · simpa using List.length_take_le 200 (x :: xs)
      · exact ih _ b hb

/-- Claim C9 counterexample: the run is claimed to report an aggregate
success count computed from the per-record succeeded flags.  With a single
record whose succeeded flag is false, the per-batch counts are [0] but the
only aggregate figure reported is total_chunks = 1, the number of records
attempted, which differs from the aggregate success count 0. -/
theorem aggregate_not_success_count_counterexample :
    (ingestUploadPhase (fun b => b.map (fun _ => false)) [(0 : Nat)]).1 = [0] ∧
    (ingestUploadPhase (fun b => b.map (fun _ => false)) [(0 : Nat)]).2.total_chunks = 1 ∧
    (ingestUploadPhase (fun b => b.map (fun _ => false)) [(0 : Nat)]).2.total_chunks ≠
      ((ingestUploadPhase (fun b => b.map (fun _ => false)) [(0 : Nat)]).1).sum := by
  refine ⟨rfl, rfl, by decide⟩

set_option maxRecDepth 10000 in
/-- Claim C9 amended: the upload loop splits the records into consecutive
batches of at most 200 (450 records give 3 batches of sizes 200, 200, 50,
in order) and reports per-batch success counts computed from the
per-record succeeded flags; the aggregate figure it reports is the total
number of records attempted (total_chunks), not an aggregate success
count. -/
theorem batching_and_reporting :
    (∀ (docs : List Nat), (batches docs).flatten = docs ∧
      ∀ b ∈ batches docs, b.length ≤ 200) ∧
    (batches (List.replicate 450 (0 : Nat))).map List.length = [200, 200, 50] ∧
    (∀ (upload : List Nat → List Bool) (docs : List Nat),
      ingestUploadPhase upload docs =
        ((batches docs).map (fun b => (upload b).count true),
         { status := "success", total_chunks := docs.length })) := by
  refine ⟨fun docs => ⟨batchesAux_flatten _ _ (Nat.le_refl _), batchesAux_sizes _ _⟩,
    ?_, fun upload docs => rfl⟩
  decide

theorem batching_and_reporting_witness :
    (batches [(0 : Nat)]).flatten = [0] ∧ ([(0 : Nat)]).length ≤ 200 :=
  ⟨(batching_and_reporting.1 [0]).1,
   (batching_and_reporting.1 [0]).2 [0] (by decide)⟩
